import Mathlib

/-!
Verification of the client connection core of the Feng RTSP server
(src/unnamed/part_000, historically network/rtsp_client.c).

The development shallowly embeds the timeout monitor
(check_if_any_rtp_session_timedout / client_ev_timeout), the per-client
thread body (client_loop) as an event trace, the per-thread libev
system-error flag (libev_syserr), and the listener callback
(rtsp_client_incoming_cb), and proves or refutes the specification
claims about them.
-/

namespace Feng

/-! ## Timeout constants (part_000, lines 39-41) -/

def LIVE_STREAM_BYE_TIMEOUT : Int := 6

def STREAM_TIMEOUT : Int := 12

/-! ## RTP sessions and the timeout monitor -/

/-- Media source kind, session->track->parent->source in the C code. -/
inductive SourceKind where
  | LIVE_SOURCE
  | STORED_SOURCE
deriving DecidableEq, Repr

/-- The fields of an RTP_session the timeout monitor reads:
the source kind reached through session->track->parent->source and
session->last_packet_send_time (a time_t, modelled as Int). -/
structure RTP_session where
  source : SourceKind
  last_packet_send_time : Int
deriving DecidableEq, Repr

/-- Observable effects of one run of check_if_any_rtp_session_timedout
on one session: whether rtcp_send_sr(session, BYE) was called and
whether ev_unloop(session->client->loop, EVUNLOOP_ONE) was called. -/
structure TimeoutEffects where
  byeSent : Bool
  loopStopped : Bool
deriving DecidableEq, Repr

/-- Embedding of check_if_any_rtp_session_timedout (part_000, lines
183-206). The first if emits an RTCP BYE when the source is LIVE and
the session has been idle at least LIVE_STREAM_BYE_TIMEOUT seconds;
the second, independent if stops the owning client event loop when the
session has been idle at least STREAM_TIMEOUT seconds. -/
def check_if_any_rtp_session_timedout (now : Int) (session : RTP_session) :
    TimeoutEffects :=
  let e0 : TimeoutEffects := { byeSent := false, loopStopped := false }
  let e1 :=
    if session.source = SourceKind.LIVE_SOURCE ∧
        now - session.last_packet_send_time ≥ LIVE_STREAM_BYE_TIMEOUT then
      { e0 with byeSent := true }
    else e0
  if now - session.last_packet_send_time ≥ STREAM_TIMEOUT then
    { e1 with loopStopped := true }
  else e1

/-- The rtp_sessions list hanging off the RTSP session
(rtsp->session->rtp_sessions), the part of the RTSP session state the
timer callback reads. -/
structure RTSP_session_state where
  rtp_sessions : List RTP_session
deriving DecidableEq, Repr

/-- Embedding of the timer callback client_ev_timeout (part_000, lines
208-216): if the client has a session with RTP sessions attached, run
the per-session check over each of them; collect the per-session
effects. A missing session or an empty list produces no effects. -/
def client_ev_timeout (now : Int) (session : Option RTSP_session_state) :
    List TimeoutEffects :=
  match session with
  | none => []
  | some ss => ss.rtp_sessions.map (check_if_any_rtp_session_timedout now)

/-- The tick stops the client loop iff some per-session check called
ev_unloop. -/
def tick_stops_loop (now : Int) (session : Option RTSP_session_state) : Bool :=
  (client_ev_timeout now session).any (fun e => e.loopStopped)

/-! ## Clients, the HTTP tunnel pair, and the client_loop trace -/

/-- Transport kind of a client, rtsp->socktype in the C code. -/
inductive Socktype where
  | RTSP_TCP
  | RTSP_SCTP
deriving DecidableEq, Repr

/-- The HTTP tunnel pair object reached through client->pair: it holds
the RTSP-carrying (POST) side in rtsp_client and the GET side in
http_client. Clients are identified by a numeric id standing for the
pointer identity the C code compares with ==. -/
structure HTTP_tunnel_pair where
  rtsp_client : Nat
  http_client : Nat
deriving DecidableEq, Repr

/-- The fields of RTSP_Client that client_loop reads: the identity of
the client, its transport kind, and the optional HTTP tunnel pair
link. -/
structure RTSP_Client where
  id : Nat
  socktype : Socktype
  pair : Option HTTP_tunnel_pair
deriving DecidableEq, Repr

/-- Observable events of one client_loop run, in program order:
g_ptr_array_add to the registry, ev_loop execution, the three watcher
stops, g_ptr_array_remove_fast from the registry, the vhost
connection_count decrement, ev_loop_destroy, and each
rtsp_client_free call (named by the freed client). -/
inductive ClientEvent where
  | registryAdd (c : Nat)
  | loopRun (c : Nat)
  | ioReadStop (c : Nat)
  | ioWriteStop (c : Nat)
  | timerStop (c : Nat)
  | registryRemove (c : Nat)
  | vhostDecrement (c : Nat)
  | loopDestroy (c : Nat)
  | freeClient (c : Nat)
deriving DecidableEq, Repr

/-- The clients freed at the end of client_loop (part_000, lines
284-292): with pair == NULL the client frees itself; when the client
is the rtsp_client of its pair it frees the pair http_client and then
itself; a paired client that is not the rtsp_client of the pair frees
nothing. -/
def client_loop_frees (client : RTSP_Client) : List Nat :=
  match client.pair with
  | none => [client.id]
  | some p =>
      if p.rtsp_client = client.id then [p.http_client, client.id]
      else []

/-- Embedding of client_loop (part_000, lines 226-292) as the trace of
its observable events, given the value the per-thread flag
client_ev_init_errors has when line 261 reads it. Watcher
initialisation before that test only fills local structures and is not
recorded as an event. -/
def client_loop (client_ev_init_errors : Int) (client : RTSP_Client) :
    List ClientEvent :=
  (if client_ev_init_errors = 0 then
    [ClientEvent.registryAdd client.id, ClientEvent.loopRun client.id,
     ClientEvent.ioReadStop client.id, ClientEvent.ioWriteStop client.id,
     ClientEvent.timerStop client.id, ClientEvent.registryRemove client.id]
   else []) ++
  [ClientEvent.vhostDecrement client.id, ClientEvent.loopDestroy client.id] ++
  (client_loop_frees client).map ClientEvent.freeClient

/-- Embedding of libev_syserr (part_000, lines 96-104) as a transformer
of the per-thread client_ev_init_errors flag: whatever the flag was,
the callback sets it to 1. -/
def libev_syserr (_client_ev_init_errors : Int) : Int := 1

/-- Operations a pool worker thread performs, as far as the per-thread
flag is concerned: either libev reports an initialisation error
through the syserr callback, or the thread serves a client by running
client_loop. -/
inductive ThreadOp where
  | syserr
  | serve (c : RTSP_Client)

/-- Run a worker thread over a list of operations, threading the
per-thread client_ev_init_errors flag and concatenating the
client_loop traces. No operation but libev_syserr ever writes the
flag; client_loop only reads it. Returns the final flag value and the
event trace. -/
def thread_run : Int → List ThreadOp → Int × List ClientEvent
  | flag, [] => (flag, [])
  | flag, ThreadOp.syserr :: ops => thread_run (libev_syserr flag) ops
  | flag, ThreadOp.serve c :: ops =>
      let rest := thread_run flag ops
      (rest.1, client_loop flag c ++ rest.2)

/-- A GET-side tunnel client: paired, and the rtsp_client of the pair
is the sibling (id 2), not this client (id 1). -/
def http_get_side : RTSP_Client :=
  { id := 1, socktype := Socktype.RTSP_TCP,
    pair := some { rtsp_client := 2, http_client := 1 } }

/-- The matching POST-side (RTSP-carrying) tunnel client of
http_get_side. -/
def http_post_side : RTSP_Client :=
  { id := 2, socktype := Socktype.RTSP_TCP,
    pair := some { rtsp_client := 2, http_client := 1 } }

/-- An ordinary client with no HTTP tunnel pair. -/
def plain_client : RTSP_Client :=
  { id := 5, socktype := Socktype.RTSP_TCP, pair := none }

/-! ## The listener callback rtsp_client_incoming_cb -/

/-- The IPPROTO_TCP protocol number. -/
def IPPROTO_TCP : Int := 6

/-- The IPPROTO_SCTP protocol number. -/
def IPPROTO_SCTP : Int := 132

/-- The two write strategies assigned to rtsp->write_data. -/
inductive WriteStrategy where
  | rtsp_write_data_queue
  | rtsp_sctp_send_rtsp
deriving DecidableEq, Repr

/-- The RTSP_Client fields rtsp_client_incoming_cb fills in. The
client is allocated with g_slice_new0, so every field not assigned
afterwards stays zeroed: the unset state of socktype, out_queue and
write_data is modelled as none or false. input_allocated records the
unconditional rtsp->input = g_byte_array_new() at line 387,
loop_allocated the ev_loop_new at line 390, and invalid_proto_logged
the fnc_log at FNC_LOG_ERR in the default switch branch. -/
structure AdmittedClient where
  sd : Int
  input_allocated : Bool
  loop_allocated : Bool
  socktype : Option Socktype
  out_queue_allocated : Bool
  write_data : Option WriteStrategy
  vhost_is_default : Bool
  vhost_count_incremented : Bool
  invalid_proto_logged : Bool
deriving DecidableEq, Repr

/-- Construction of the RTSP_Client inside rtsp_client_incoming_cb
(part_000, lines 386-417): g_slice_new0, the unconditional input
buffer, the per-client loop, then the switch on sock_proto. The TCP
case sets socktype, allocates the out_queue and picks the queued write
strategy; the SCTP case (compiled only under ENABLE_SCTP) sets
socktype and the message write strategy; the default case only logs at
ERROR. Afterwards the vhost is set to the default vhost and its
connection count incremented. -/
def build_rtsp_client (enable_sctp : Bool) (sock_proto : Int)
    (client_sd : Int) : AdmittedClient :=
  let base : AdmittedClient :=
    { sd := client_sd, input_allocated := true, loop_allocated := true,
      socktype := none, out_queue_allocated := false, write_data := none,
      vhost_is_default := true, vhost_count_incremented := true,
      invalid_proto_logged := false }
  if sock_proto = IPPROTO_TCP then
    { base with socktype := some Socktype.RTSP_TCP,
                out_queue_allocated := true,
                write_data := some WriteStrategy.rtsp_write_data_queue }
  else if enable_sctp = true ∧ sock_proto = IPPROTO_SCTP then
    { base with socktype := some Socktype.RTSP_SCTP,
                write_data := some WriteStrategy.rtsp_sctp_send_rtsp }
  else
    { base with invalid_proto_logged := true }

/-- Outcomes of the system calls rtsp_client_incoming_cb makes:
accept (none models a negative return), getsockname, the
feng_assert_or_goto comparison of the two address lengths, and, under
ENABLE_SCTP, getsockopt for SO_PROTOCOL (none models failure, some p
the protocol read). -/
structure SyscallOutcome where
  accept_fd : Option Int
  getsockname_ok : Bool
  addr_len_match : Bool
  getsockopt_proto : Option Int
deriving DecidableEq, Repr

/-- Result of one invocation of the listener callback: accept failed
and the callback just returned; an admission error after accept, with
the accepted descriptor closed at the error label; or a fully built
client pushed onto the worker pool. -/
inductive IncomingResult where
  | accept_failed
  | admission_error_fd_closed (fd : Int)
  | pushed (c : AdmittedClient)
deriving DecidableEq, Repr

/-- Embedding of rtsp_client_incoming_cb (part_000, lines 350-425).
Without ENABLE_SCTP the getsockopt call is not compiled and sock_proto
is the constant IPPROTO_TCP. Every failure path logs with
fnc_perror and either returns (accept) or jumps to the error label
that closes client_sd; the callback always returns normally to the
outer event loop. -/
def rtsp_client_incoming_cb (enable_sctp : Bool) (sys : SyscallOutcome) :
    IncomingResult :=
  match sys.accept_fd with
  | none => IncomingResult.accept_failed
  | some client_sd =>
    if sys.getsockname_ok = false then
      IncomingResult.admission_error_fd_closed client_sd
    else if sys.addr_len_match = false then
      IncomingResult.admission_error_fd_closed client_sd
    else
      match (if enable_sctp then sys.getsockopt_proto else some IPPROTO_TCP) with
      | none => IncomingResult.admission_error_fd_closed client_sd
      | some sock_proto =>
          IncomingResult.pushed (build_rtsp_client enable_sctp sock_proto client_sd)

/-- Syscall outcomes in which every call succeeds and getsockopt
reports protocol p. -/
def all_syscalls_ok (p : Int) : SyscallOutcome :=
  { accept_fd := some 9, getsockname_ok := true, addr_len_match := true,
    getsockopt_proto := some p }

/-- Syscall outcomes in which accept fails. -/
def sys_accept_fail : SyscallOutcome :=
  { accept_fd := none, getsockname_ok := true, addr_len_match := true,
    getsockopt_proto := some 6 }

/-- Syscall outcomes in which accept yields fd 9 and getsockname
fails. -/
def sys_getsockname_fail : SyscallOutcome :=
  { accept_fd := some 9, getsockname_ok := false, addr_len_match := true,
    getsockopt_proto := some 6 }

/-- Syscall outcomes in which accept and getsockname succeed on fd 9
and getsockopt fails. -/
def sys_getsockopt_fail : SyscallOutcome :=
  { accept_fd := some 9, getsockname_ok := true, addr_len_match := true,
    getsockopt_proto := none }

end Feng

namespace Feng

/-! ## Claims C2, C3, C4: the timeout monitor -/

/-- C2: for every RTP session attached to a client, on a timer tick of
the timeout monitor, if now minus last_packet_send_time is at least
STREAM_TIMEOUT (12 seconds) then the owning client event loop is
stopped, regardless of whether the source is LIVE or STORED. -/
theorem timeout_hard_kick_stops_loop
    (now : Int) (ss : RTSP_session_state) (s : RTP_session)
    (hmem : s ∈ ss.rtp_sessions)
    (hidle : now - s.last_packet_send_time ≥ STREAM_TIMEOUT) :
    (check_if_any_rtp_session_timedout now s).loopStopped = true ∧
    tick_stops_loop now (some ss) = true := by
  have hstop : (check_if_any_rtp_session_timedout now s).loopStopped = true := by
    unfold check_if_any_rtp_session_timedout
    simp only
    split <;> split <;> simp_all
  refine ⟨hstop, ?_⟩
  unfold tick_stops_loop client_ev_timeout
  rw [List.any_eq_true]
  exact ⟨_, List.mem_map_of_mem _ hmem, hstop⟩

/-- Witness for timeout_hard_kick_stops_loop: a STORED session idle 13
seconds is hard-kicked. -/
theorem timeout_hard_kick_stops_loop_witness :
    (check_if_any_rtp_session_timedout 13
      { source := SourceKind.STORED_SOURCE, last_packet_send_time := 0 }).loopStopped = true ∧
    tick_stops_loop 13
      (some { rtp_sessions := [{ source := SourceKind.STORED_SOURCE,
                                 last_packet_send_time := 0 }] }) = true :=
  timeout_hard_kick_stops_loop 13
    { rtp_sessions := [{ source := SourceKind.STORED_SOURCE, last_packet_send_time := 0 }] }
    { source := SourceKind.STORED_SOURCE, last_packet_send_time := 0 }
    (by decide) (by decide)

/-- C3: a LIVE session idle at least LIVE_STREAM_BYE_TIMEOUT gets an
RTCP BYE; the soft branch alone never stops the loop (idle below
STREAM_TIMEOUT keeps the loop running); a STORED session never gets a
BYE. -/
theorem timeout_soft_bye
    (now : Int) (s : RTP_session) :
    (s.source = SourceKind.LIVE_SOURCE →
      now - s.last_packet_send_time ≥ LIVE_STREAM_BYE_TIMEOUT →
      (check_if_any_rtp_session_timedout now s).byeSent = true) ∧
    (now - s.last_packet_send_time < STREAM_TIMEOUT →
      (check_if_any_rtp_session_timedout now s).loopStopped = false) ∧
    (s.source = SourceKind.STORED_SOURCE →
      (check_if_any_rtp_session_timedout now s).byeSent = false) := by
  unfold check_if_any_rtp_session_timedout
  refine ⟨?_, ?_, ?_⟩ <;> intros <;> simp only <;>
    split <;> split <;> simp_all <;> omega

/-- Witness for timeout_soft_bye: a LIVE session idle 7 seconds gets a
BYE while its loop keeps running, and a STORED session idle 7 seconds
gets no BYE. -/
theorem timeout_soft_bye_witness :
    (check_if_any_rtp_session_timedout 7
      { source := SourceKind.LIVE_SOURCE, last_packet_send_time := 0 }).byeSent = true ∧
    (check_if_any_rtp_session_timedout 7
      { source := SourceKind.LIVE_SOURCE, last_packet_send_time := 0 }).loopStopped = false ∧
    (check_if_any_rtp_session_timedout 7
      { source := SourceKind.STORED_SOURCE, last_packet_send_time := 0 }).byeSent = false :=
  ⟨(timeout_soft_bye 7 { source := SourceKind.LIVE_SOURCE, last_packet_send_time := 0 }).1
      rfl (by decide),
   (timeout_soft_bye 7 { source := SourceKind.LIVE_SOURCE, last_packet_send_time := 0 }).2.1
      (by decide),
   (timeout_soft_bye 7 { source := SourceKind.STORED_SOURCE, last_packet_send_time := 0 }).2.2
      rfl⟩

/-- C4: on any tick that hard-kicks a LIVE session the BYE branch has
already fired in the same callback run; for a LIVE session idle at
least LIVE_STREAM_BYE_TIMEOUT but below STREAM_TIMEOUT, a BYE goes out
while the loop is not stopped; and STREAM_TIMEOUT is the required
integer multiple (two times) of LIVE_STREAM_BYE_TIMEOUT. -/
theorem timeout_bye_before_hard_kick
    (now : Int) (s : RTP_session) :
    (s.source = SourceKind.LIVE_SOURCE →
      (check_if_any_rtp_session_timedout now s).loopStopped = true →
      (check_if_any_rtp_session_timedout now s).byeSent = true) ∧
    (s.source = SourceKind.LIVE_SOURCE →
      now - s.last_packet_send_time ≥ LIVE_STREAM_BYE_TIMEOUT →
      now - s.last_packet_send_time < STREAM_TIMEOUT →
      (check_if_any_rtp_session_timedout now s).byeSent = true ∧
      (check_if_any_rtp_session_timedout now s).loopStopped = false) ∧
    STREAM_TIMEOUT = 2 * LIVE_STREAM_BYE_TIMEOUT := by
  refine ⟨?_, ?_, by decide⟩
  · intro hsrc hstop
    unfold check_if_any_rtp_session_timedout STREAM_TIMEOUT
      LIVE_STREAM_BYE_TIMEOUT at *
    simp only at *
    split at hstop <;> split at hstop <;> simp_all <;> omega
  · intro hsrc hlo hhi
    unfold check_if_any_rtp_session_timedout
    simp only
    constructor <;> split <;> split <;> simp_all <;> omega

/-- Witness for timeout_bye_before_hard_kick: at idle 12 the LIVE
session is kicked with a BYE; at idle 7 the BYE goes out and the loop
survives. -/
theorem timeout_bye_before_hard_kick_witness :
    (check_if_any_rtp_session_timedout 12
      { source := SourceKind.LIVE_SOURCE, last_packet_send_time := 0 }).byeSent = true ∧
    ((check_if_any_rtp_session_timedout 7
      { source := SourceKind.LIVE_SOURCE, last_packet_send_time := 0 }).byeSent = true ∧
     (check_if_any_rtp_session_timedout 7
      { source := SourceKind.LIVE_SOURCE, last_packet_send_time := 0 }).loopStopped = false) :=
  ⟨(timeout_bye_before_hard_kick 12
      { source := SourceKind.LIVE_SOURCE, last_packet_send_time := 0 }).1 rfl (by decide),
   (timeout_bye_before_hard_kick 7
      { source := SourceKind.LIVE_SOURCE, last_packet_send_time := 0 }).2.1 rfl
      (by decide) (by decide)⟩

/-! ## Claims C1, C5, C8, C10: client_loop, teardown, the syserr flag -/

/-- Helper: with a nonzero flag the client_loop trace is teardown
only. -/
theorem client_loop_of_flag_ne_zero (flag : Int) (c : RTSP_Client)
    (h : flag ≠ 0) :
    client_loop flag c =
      [ClientEvent.vhostDecrement c.id, ClientEvent.loopDestroy c.id] ++
      (client_loop_frees c).map ClientEvent.freeClient := by
  simp [client_loop, h]

/-- C1 counterexample: the claim says a paired client that is not the
RTSP-carrying side frees only itself when its loop exits. In the code
(part_000, lines 286-291) the else-if guard pair->rtsp_client ==
client fails for such a client and no rtsp_client_free call is made at
all: the GET side http_get_side frees nothing, and in particular its
own free event is absent from its trace. -/
theorem pair_teardown_claim_false :
    ¬ (client_loop_frees http_get_side = [http_get_side.id]) ∧
    ClientEvent.freeClient http_get_side.id ∉ client_loop 0 http_get_side := by
  decide

/-- C1 amended: when the loop of a client with pair == NULL exits, the
client frees itself; when the loop of the RTSP-carrying side of a pair
exits, it frees the GET sibling first and then itself; when the loop
of a paired client that is not the RTSP-carrying side exits, it frees
nothing and both structures are freed by the RTSP-carrying sibling
when the own loop of that sibling exits. Over the two loop exits of a
well-formed pair each underlying client is freed exactly once. -/
theorem pair_teardown_amended
    (a b other : RTSP_Client) (p : HTTP_tunnel_pair)
    (ha : a.pair = some p) (hb : b.pair = some p)
    (hra : p.rtsp_client = a.id) (hhb : p.http_client = b.id)
    (hne : a.id ≠ b.id) (hother : other.pair = none) :
    client_loop_frees a = [b.id, a.id] ∧
    client_loop_frees b = [] ∧
    (client_loop_frees a ++ client_loop_frees b).count a.id = 1 ∧
    (client_loop_frees a ++ client_loop_frees b).count b.id = 1 ∧
    client_loop_frees other = [other.id] := by
  have hfa : client_loop_frees a = [b.id, a.id] := by
    unfold client_loop_frees
    rw [ha]
    simp [hra, hhb]
  have hfb : client_loop_frees b = [] := by
    unfold client_loop_frees
    rw [hb]
    have hg : p.rtsp_client ≠ b.id := by rw [hra]; exact hne
    simp [hg]
  have hfo : client_loop_frees other = [other.id] := by
    unfold client_loop_frees
    rw [hother]
  refine ⟨hfa, hfb, ?_, ?_, hfo⟩
  · rw [hfa, hfb]
    simp [List.count_cons, hne, Ne.symm hne]
  · rw [hfa, hfb]
    simp [List.count_cons, hne, Ne.symm hne]

/-- Witness for pair_teardown_amended at the concrete pair
(http_post_side, http_get_side) and the unpaired plain_client. -/
theorem pair_teardown_amended_witness :
    client_loop_frees http_post_side = [http_get_side.id, http_post_side.id] ∧
    client_loop_frees http_get_side = [] ∧
    (client_loop_frees http_post_side ++ client_loop_frees http_get_side).count
      http_post_side.id = 1 ∧
    (client_loop_frees http_post_side ++ client_loop_frees http_get_side).count
      http_get_side.id = 1 ∧
    client_loop_frees plain_client = [plain_client.id] :=
  pair_teardown_amended http_post_side http_get_side plain_client
    { rtsp_client := 2, http_client := 1 } rfl rfl rfl rfl (by decide) rfl

/-- C5: when the per-thread flag reports no initialisation error, the
client is added to the registry immediately before its loop runs and
removed right after the loop exits (only the three watcher stops, part
of loop teardown, sit in between, before anything observable to other
threads); when the flag reports an initialisation error the client is
never added to the registry and the loop never runs. -/
theorem registry_iff_loop_running
    (flag : Int) (c : RTSP_Client) :
    (flag = 0 → client_loop flag c =
      [ClientEvent.registryAdd c.id, ClientEvent.loopRun c.id,
       ClientEvent.ioReadStop c.id, ClientEvent.ioWriteStop c.id,
       ClientEvent.timerStop c.id, ClientEvent.registryRemove c.id,
       ClientEvent.vhostDecrement c.id, ClientEvent.loopDestroy c.id] ++
      (client_loop_frees c).map ClientEvent.freeClient) ∧
    (flag ≠ 0 → ClientEvent.registryAdd c.id ∉ client_loop flag c ∧
                ClientEvent.loopRun c.id ∉ client_loop flag c) := by
  constructor
  · intro h
    simp [client_loop, h]
  · intro h
    rw [client_loop_of_flag_ne_zero flag c h]
    simp

/-- Witness for registry_iff_loop_running: the full trace of
plain_client with a clean flag, and the absence of registration with a
dirty flag. -/
theorem registry_iff_loop_running_witness :
    (client_loop 0 plain_client =
      [ClientEvent.registryAdd plain_client.id, ClientEvent.loopRun plain_client.id,
       ClientEvent.ioReadStop plain_client.id, ClientEvent.ioWriteStop plain_client.id,
       ClientEvent.timerStop plain_client.id, ClientEvent.registryRemove plain_client.id,
       ClientEvent.vhostDecrement plain_client.id, ClientEvent.loopDestroy plain_client.id] ++
      (client_loop_frees plain_client).map ClientEvent.freeClient) ∧
    (ClientEvent.registryAdd plain_client.id ∉ client_loop 1 plain_client ∧
     ClientEvent.loopRun plain_client.id ∉ client_loop 1 plain_client) :=
  ⟨(registry_iff_loop_running 0 plain_client).1 rfl,
   (registry_iff_loop_running 1 plain_client).2 (by decide)⟩

/-- C8: with the per-thread syserr flag set, client_loop skips
registration and loop execution and goes straight to teardown, which
still decrements the vhost connection count, destroys the per-client
loop, and (for a client with no tunnel pair) frees the client. -/
theorem syserr_skips_loop
    (flag : Int) (c : RTSP_Client)
    (hflag : flag ≠ 0) (hpair : c.pair = none) :
    client_loop flag c =
      [ClientEvent.vhostDecrement c.id, ClientEvent.loopDestroy c.id,
       ClientEvent.freeClient c.id] ∧
    ClientEvent.registryAdd c.id ∉ client_loop flag c ∧
    ClientEvent.loopRun c.id ∉ client_loop flag c := by
  have hfrees : client_loop_frees c = [c.id] := by
    unfold client_loop_frees
    rw [hpair]
  rw [client_loop_of_flag_ne_zero flag c hflag, hfrees]
  simp

/-- Witness for syserr_skips_loop: plain_client under flag value 1. -/
theorem syserr_skips_loop_witness :
    client_loop 1 plain_client =
      [ClientEvent.vhostDecrement plain_client.id, ClientEvent.loopDestroy plain_client.id,
       ClientEvent.freeClient plain_client.id] ∧
    ClientEvent.registryAdd plain_client.id ∉ client_loop 1 plain_client ∧
    ClientEvent.loopRun plain_client.id ∉ client_loop 1 plain_client :=
  syserr_skips_loop 1 plain_client (by decide) rfl

/-- C10: the per-thread flag is sticky. The syserr callback sets it to
1; running clients never writes it, so after one syserr on a worker
thread the flag is 1 for good and every subsequent client served by
that thread is torn down immediately: no registry add and no loop run
ever appears in the trace, whatever clients the thread serves. -/
theorem syserr_flag_sticky
    (flag : Int) (ops : List ThreadOp) (n : Nat) :
    libev_syserr flag = 1 ∧
    thread_run flag (ThreadOp.syserr :: ops) = thread_run 1 ops ∧
    (thread_run 1 ops).1 = 1 ∧
    ClientEvent.registryAdd n ∉ (thread_run 1 ops).2 ∧
    ClientEvent.loopRun n ∉ (thread_run 1 ops).2 := by
  refine ⟨rfl, rfl, ?_, ?_, ?_⟩
  · induction ops with
    | nil => rfl
    | cons op ops ih =>
      cases op with
      | syserr => simpa [thread_run, libev_syserr] using ih
      | serve c => simpa [thread_run] using ih
  · induction ops with
    | nil => simp [thread_run]
    | cons op ops ih =>
      cases op with
      | syserr => simpa [thread_run, libev_syserr] using ih
      | serve c =>
        simp only [thread_run, List.mem_append]
        rintro (hmem | hmem)
        · rw [client_loop_of_flag_ne_zero 1 c (by decide)] at hmem
          simp at hmem
        · exact ih hmem
  · induction ops with
    | nil => simp [thread_run]
    | cons op ops ih =>
      cases op with
      | syserr => simpa [thread_run, libev_syserr] using ih
      | serve c =>
        simp only [thread_run, List.mem_append]
        rintro (hmem | hmem)
        · rw [client_loop_of_flag_ne_zero 1 c (by decide)] at hmem
          simp at hmem
        · exact ih hmem

/-- Witness for syserr_flag_sticky on a thread that hits a syserr and
then serves plain_client. -/
theorem syserr_flag_sticky_witness :
    libev_syserr 0 = 1 ∧
    thread_run 0 (ThreadOp.syserr :: [ThreadOp.serve plain_client]) =
      thread_run 1 [ThreadOp.serve plain_client] ∧
    (thread_run 1 [ThreadOp.serve plain_client]).1 = 1 ∧
    ClientEvent.registryAdd 5 ∉ (thread_run 1 [ThreadOp.serve plain_client]).2 ∧
    ClientEvent.loopRun 5 ∉ (thread_run 1 [ThreadOp.serve plain_client]).2 :=
  syserr_flag_sticky 0 [ThreadOp.serve plain_client] 5

/-! ## Claims C6, C7, C9: the listener and admitter -/

/-- C6 counterexample: the claim says the input byte buffer is present
only for TCP and absent on SCTP. In the code rtsp->input =
g_byte_array_new() runs at line 387, before the protocol switch, so an
admitted SCTP client carries an input buffer too. -/
theorem sctp_input_buffer_claim_false :
    (build_rtsp_client true IPPROTO_SCTP 9).socktype = some Socktype.RTSP_SCTP ∧
    (build_rtsp_client true IPPROTO_SCTP 9).input_allocated = true := by
  decide

/-- C6 amended: every admitted client gets an input byte buffer,
regardless of transport, because the allocation happens before the
protocol switch; the output queue is allocated exactly for the TCP
protocol. -/
theorem input_buffer_amended (enable_sctp : Bool) (sock_proto sd : Int) :
    (build_rtsp_client enable_sctp sock_proto sd).input_allocated = true ∧
    ((build_rtsp_client enable_sctp sock_proto sd).out_queue_allocated = true ↔
      sock_proto = IPPROTO_TCP) := by
  unfold build_rtsp_client
  by_cases h1 : sock_proto = IPPROTO_TCP
  · simp [h1]
  · by_cases h2 : enable_sctp = true ∧ sock_proto = IPPROTO_SCTP
    · simp [h1, h2, IPPROTO_SCTP, IPPROTO_TCP]
    · simp [h1, h2]

/-- C7 counterexample: the claim says an unknown protocol is admitted
as TCP, with a TCP output queue and the queued write strategy. In the
code the default switch branch only logs: protocol 17 (UDP) leaves
out_queue unallocated, write_data unset, and socktype at its zeroed
value rather than an assigned TCP kind. -/
theorem unknown_proto_claim_false :
    (build_rtsp_client true 17 9).invalid_proto_logged = true ∧
    (build_rtsp_client true 17 9).out_queue_allocated = false ∧
    (build_rtsp_client true 17 9).write_data = none ∧
    (build_rtsp_client true 17 9).write_data ≠
      some WriteStrategy.rtsp_write_data_queue := by
  decide

/-- C7 amended: on an unknown socket protocol the listener logs at
ERROR and still admits the connection, pushing the constructed client
to the worker pool, but not as a TCP client: no output queue is
allocated, write_data is left unset (null), and socktype keeps its
zero-initialised value; only the unconditional input buffer and loop
are allocated. -/
theorem unknown_proto_amended (enable_sctp : Bool) (sock_proto sd : Int)
    (h1 : sock_proto ≠ IPPROTO_TCP)
    (h2 : ¬ (enable_sctp = true ∧ sock_proto = IPPROTO_SCTP)) :
    (build_rtsp_client enable_sctp sock_proto sd).invalid_proto_logged = true ∧
    (build_rtsp_client enable_sctp sock_proto sd).socktype = none ∧
    (build_rtsp_client enable_sctp sock_proto sd).out_queue_allocated = false ∧
    (build_rtsp_client enable_sctp sock_proto sd).write_data = none ∧
    (build_rtsp_client enable_sctp sock_proto sd).input_allocated = true ∧
    (build_rtsp_client enable_sctp sock_proto sd).loop_allocated = true ∧
    (enable_sctp = true →
      rtsp_client_incoming_cb enable_sctp (all_syscalls_ok sock_proto) =
        IncomingResult.pushed (build_rtsp_client enable_sctp sock_proto 9)) := by
  have hbuild : build_rtsp_client enable_sctp sock_proto sd =
      { sd := sd, input_allocated := true, loop_allocated := true,
        socktype := none, out_queue_allocated := false, write_data := none,
        vhost_is_default := true, vhost_count_incremented := true,
        invalid_proto_logged := true } := by
    unfold build_rtsp_client
    simp [h1, h2]
  refine ⟨?_, ?_, ?_, ?_, ?_, ?_, ?_⟩
  · rw [hbuild]
  · rw [hbuild]
  · rw [hbuild]
  · rw [hbuild]
  · rw [hbuild]
  · rw [hbuild]
  · intro he
    subst he
    rfl

/-- Witness for unknown_proto_amended at protocol 17 with SCTP support
compiled in. -/
theorem unknown_proto_amended_witness :
    (build_rtsp_client true 17 9).invalid_proto_logged = true ∧
    (build_rtsp_client true 17 9).socktype = none ∧
    (build_rtsp_client true 17 9).out_queue_allocated = false ∧
    (build_rtsp_client true 17 9).write_data = none ∧
    (build_rtsp_client true 17 9).input_allocated = true ∧
    (build_rtsp_client true 17 9).loop_allocated = true ∧
    (true = true →
      rtsp_client_incoming_cb true (all_syscalls_ok 17) =
        IncomingResult.pushed (build_rtsp_client true 17 9)) :=
  unknown_proto_amended true 17 9 (by decide) (by decide)

/-- C9: admission failures are contained in the listener callback: a
failed accept makes the callback return with nothing created and no
descriptor to close; a failed getsockname, or a failed getsockopt in
an SCTP-enabled build, makes it close the accepted descriptor and
return; and no error path ever pushes a client. The callback is a
total function into IncomingResult, so no failure propagates to the
outer event loop. -/
theorem admission_errors_contained
    (enable_sctp : Bool) (sys : SyscallOutcome) (fd : Int) :
    (sys.accept_fd = none →
      rtsp_client_incoming_cb enable_sctp sys = IncomingResult.accept_failed) ∧
    (sys.accept_fd = some fd → sys.getsockname_ok = false →
      rtsp_client_incoming_cb enable_sctp sys =
        IncomingResult.admission_error_fd_closed fd) ∧
    (sys.accept_fd = some fd → sys.getsockname_ok = true →
      sys.addr_len_match = true → enable_sctp = true →
      sys.getsockopt_proto = none →
      rtsp_client_incoming_cb enable_sctp sys =
        IncomingResult.admission_error_fd_closed fd) ∧
    ((sys.accept_fd = none ∨ sys.getsockname_ok = false) →
      ∀ c : AdmittedClient,
        rtsp_client_incoming_cb enable_sctp sys ≠ IncomingResult.pushed c) := by
  obtain ⟨afd, gok, alm, gproto⟩ := sys
  refine ⟨?_, ?_, ?_, ?_⟩
  · intro h
    simp only at h
    subst h
    rfl
  · intro ha hg
    simp only at ha hg
    subst ha
    subst hg
    rfl
  · intro ha hg ham he hp
    simp only at ha hg ham hp
    subst ha
    subst hg
    subst ham
    subst he
    subst hp
    rfl
  · rintro (h | h) c hpush <;> simp only at h <;> subst h
    · exact IncomingResult.noConfusion hpush
    · cases afd with
      | none => exact IncomingResult.noConfusion hpush
      | some fd2 => simp [rtsp_client_incoming_cb] at hpush

/-- Witness for admission_errors_contained on the three failing
syscall outcomes. -/
theorem admission_errors_contained_witness :
    rtsp_client_incoming_cb true sys_accept_fail = IncomingResult.accept_failed ∧
    rtsp_client_incoming_cb true sys_getsockname_fail =
      IncomingResult.admission_error_fd_closed 9 ∧
    rtsp_client_incoming_cb true sys_getsockopt_fail =
      IncomingResult.admission_error_fd_closed 9 :=
  ⟨(admission_errors_contained true sys_accept_fail 9).1 rfl,
   (admission_errors_contained true sys_getsockname_fail 9).2.1 rfl rfl,
   (admission_errors_contained true sys_getsockopt_fail 9).2.2.1 rfl rfl rfl rfl rfl⟩

end Feng
